import Mathlib

/-!
Verification development for the API-key registry and streaming gateway.

The registry (`src/core/auth.py`, class `APIKeyManager`) is embedded as a
pure state-passing model: the file system is an explicit `Env` value
(existence, modification time, and the outcome of reading the backing
store), the clock is an explicit `now : Nat` argument, and each Python
method becomes a Lean function from the old state to a result paired
with the new state.  Python `dict` is an association list with
first-match lookup and in-place (replace-first) update, matching dict
semantics for states built by the registry's own operations; the Python
`set` of active keys is a list used only through membership, add and
discard.

The request boundary (`src/api/routes.py`) is embedded the same way:
`extract_api_key_from_request`, `validate_admin_key`, the
`APIKeyMiddleware.dispatch` decision, the empty-message branch of
`chat_completions`, and the `stream_with_disconnect_check` generator.
-/

namespace Gateway

/-- Python `str.strip()` whitespace predicate (ASCII whitespace). -/
def isPySpace (c : Char) : Bool :=
  c = ' ' || c = '\t' || c = '\n' || c = '\r' || c = '\x0b' || c = '\x0c'

/-- Characters of a string with leading and trailing whitespace removed. -/
def stripChars (l : List Char) : List Char :=
  ((l.dropWhile isPySpace).reverse.dropWhile isPySpace).reverse

/-- Python `s.strip()`. -/
def pstrip (s : String) : String := ⟨stripChars s.data⟩

/-- Python `s.startswith(p)`. -/
def startsWithStr (s p : String) : Bool := p.data.isPrefixOf s.data

/-- Python `s[n:]` (drop the first `n` characters). -/
def dropStr (s : String) (n : Nat) : String := ⟨s.data.drop n⟩

/-- Split a character list at the first occurrence of `c`, if any. -/
def splitFirst : List Char → Char → Option (List Char × List Char)
  | [], _ => none
  | x :: t, c =>
      if x = c then some ([], t)
      else (splitFirst t c).map (fun p => (x :: p.1, p.2))

/-- Python `line.split(':', 2)`: at most three colon-delimited fields. -/
def splitColon2 (l : List Char) : List (List Char) :=
  match splitFirst l ':' with
  | none => [l]
  | some (a, rest) =>
      match splitFirst rest ':' with
      | none => [a, rest]
      | some (b, rest2) => [a, b, rest2]

/-- One registry record: the value stored in `APIKeyManager.api_keys`. -/
structure KeyRecord where
  name : String
  description : String
  created_at : Nat
  usage_count : Nat
  last_used : Nat
  is_active : Bool
deriving DecidableEq, Repr

/-- The mutable state of one `APIKeyManager` instance. -/
structure RegState where
  api_keys : List (String × KeyRecord)
  active_keys : List String
  last_reload_time : Nat
deriving DecidableEq, Repr

/-- The file-system environment a registry call runs against:
whether the keys file exists, its modification time, and the lines a
read would yield (`none` models the read raising an exception). -/
structure Env where
  fileExists : Bool
  mtime : Nat
  readLines : Option (List String)
deriving DecidableEq, Repr

/-- First-match association-list lookup (Python `dict` access). -/
def lookupKey : List (String × KeyRecord) → String → Option KeyRecord
  | [], _ => none
  | (k, r) :: t, key => if k = key then some r else lookupKey t key

/-- Python `dict` assignment: replace the first binding of `key`,
or append a new binding when absent. -/
def insertKey : List (String × KeyRecord) → String → KeyRecord → List (String × KeyRecord)
  | [], key, v => [(key, v)]
  | (k, r) :: t, key, v =>
      if k = key then (key, v) :: t else (k, r) :: insertKey t key v

/-- In-place update of an existing binding (replace-first). -/
def updateKey : List (String × KeyRecord) → String → KeyRecord → List (String × KeyRecord)
  | [], _, _ => []
  | (k, r) :: t, key, v =>
      if k = key then (key, v) :: t else (k, r) :: updateKey t key v

/-- Python `set.add`. -/
def addKey (l : List String) (k : String) : List String :=
  if k ∈ l then l else k :: l

/-- Python `set.discard`. -/
def discardKey (l : List String) (k : String) : List String :=
  l.filter (fun x => x ≠ k)

/-- A record as `load_keys` builds it: zero usage, never used, active. -/
def mkRec (name description : String) (now : Nat) : KeyRecord :=
  { name := name, description := description, created_at := now,
    usage_count := 0, last_used := 0, is_active := true }

/-- Parse one line of the backing store as `load_keys` does: strip it,
skip blanks and `#` comments, split into at most three colon fields,
require at least two fields and an `sk-`-prefixed secret. -/
def parseLine (line : String) : Option (String × String × String) :=
  let l := stripChars line.data
  if l = [] then none
  else if l.head? = some '#' then none
  else
    match splitColon2 l with
    | [_] => none
    | [a, b] =>
        let key := stripChars b
        if String.data "sk-" |>.isPrefixOf key then
          some (⟨stripChars a⟩, ⟨key⟩, "")
        else none
    | [a, b, c] =>
        let key := stripChars b
        if String.data "sk-" |>.isPrefixOf key then
          some (⟨stripChars a⟩, ⟨key⟩, ⟨stripChars c⟩)
        else none
    | _ => none

/-- Fold step of `load_keys`: a parsed line inserts an active record and
adds its secret to the active set; an unparsable line is skipped. -/
def loadLine (now : Nat) (acc : List (String × KeyRecord) × List String) (line : String) :
    List (String × KeyRecord) × List String :=
  match parseLine line with
  | none => acc
  | some (name, key, desc) =>
      (insertKey acc.1 key (mkRec name desc now), addKey acc.2 key)

/-- The table and active set `load_keys` builds from the file's lines. -/
def buildFromLines (lines : List String) (now : Nat) :
    List (String × KeyRecord) × List String :=
  lines.foldl (loadLine now) ([], [])

/-- Model of `APIKeyManager.load_keys`.  Missing file: return failure untouched.
Read failure: the table and active set have already been cleared inside
the lock when the exception is caught, `last_reload_time` is not
updated.  Success: the freshly built table replaces the old one and
`last_reload_time` is set to the current time.  (The read is modelled
as all-or-nothing.) -/
def load_keys (st : RegState) (env : Env) (now : Nat) : Bool × RegState :=
  if env.fileExists = false then (false, st)
  else
    match env.readLines with
    | none => (false, { st with api_keys := [], active_keys := [] })
    | some lines =>
        let built := buildFromLines lines now
        (true, { api_keys := built.1, active_keys := built.2, last_reload_time := now })

/-- Model of `APIKeyManager._should_reload`: false when the file is missing,
otherwise compares the file's modification time with the last reload. -/
def should_reload (st : RegState) (env : Env) : Bool :=
  if env.fileExists = false then false
  else decide (env.mtime > st.last_reload_time)

/-- The usage bump `validate_key` applies to a hit record:
`usage_count += 1`, `last_used = now`. -/
def bumpRec (r : KeyRecord) (now : Nat) : KeyRecord :=
  { r with usage_count := r.usage_count + 1, last_used := now }

/-- The lookup-and-bump part of `validate_key` (the body under the
lock, after the optional reload): a present active record has its
`usage_count` incremented and `last_used` set to now. -/
def validate_core (st : RegState) (now : Nat) (key : String) : Bool × RegState :=
  match lookupKey st.api_keys key with
  | some r =>
      if r.is_active then
        (true, { st with api_keys := updateKey st.api_keys key (bumpRec r now) })
      else (false, st)
  | none => (false, st)

/-- Model of `APIKeyManager.validate_key`: empty input is rejected outright;
otherwise the key is stripped, a reload runs when `_should_reload`
says so, and the (possibly reloaded) table is consulted. -/
def validate_key (st : RegState) (env : Env) (now : Nat) (raw : String) : Bool × RegState :=
  if raw = "" then (false, st)
  else
    let key := pstrip raw
    let st1 := if should_reload st env then (load_keys st env now).2 else st
    validate_core st1 now key

/-- Model of `APIKeyManager.get_key_info`: read-only stripped lookup. -/
def get_key_info (st : RegState) (raw : String) : Option KeyRecord :=
  if raw = "" then none else lookupKey st.api_keys (pstrip raw)

/-- Model of `APIKeyManager.deactivate_key`. -/
def deactivate_key (st : RegState) (key : String) : Bool × RegState :=
  match lookupKey st.api_keys key with
  | some r =>
      (true, { st with
        api_keys := updateKey st.api_keys key { r with is_active := false },
        active_keys := discardKey st.active_keys key })
  | none => (false, st)

/-- Model of `APIKeyManager.activate_key`. -/
def activate_key (st : RegState) (key : String) : Bool × RegState :=
  match lookupKey st.api_keys key with
  | some r =>
      (true, { st with
        api_keys := updateKey st.api_keys key { r with is_active := true },
        active_keys := addKey st.active_keys key })
  | none => (false, st)

/-- Model of `APIKeyManager.create_key`: the random token is an explicit input;
the stored secret is `"sk-" ++ token`. -/
def create_key (st : RegState) (token name description : String) (now : Nat) :
    String × RegState :=
  let api_key := "sk-" ++ token
  (api_key,
   { st with
     api_keys := insertKey st.api_keys api_key (mkRec name description now),
     active_keys := addKey st.active_keys api_key })

/-- The secondary-index invariant: the active set holds exactly the
secrets whose (first-match) record is active. -/
def activeInv (st : RegState) : Prop :=
  ∀ k : String, k ∈ st.active_keys ↔
    ∃ r : KeyRecord, lookupKey st.api_keys k = some r ∧ r.is_active = true

/-- The invariant transferred to the accumulator pairs of the load fold. -/
def pairInv (p : List (String × KeyRecord) × List String) : Prop :=
  ∀ k : String, k ∈ p.2 ↔ ∃ r : KeyRecord, lookupKey p.1 k = some r ∧ r.is_active = true

/-- Every record reachable in a table has zero usage, zero `last_used`
and is active — the shape `load_keys` leaves every record in. -/
def freshRecs (l : List (String × KeyRecord)) : Prop :=
  ∀ (k : String) (r : KeyRecord), lookupKey l k = some r →
    r.usage_count = 0 ∧ r.last_used = 0 ∧ r.is_active = true

/-! ### The request boundary (`src/api/routes.py`) -/

/-- Model of `extract_api_key_from_request`: take the Authorization header,
strip it, require the literal case-sensitive scheme `"Bearer "`, and
return the stripped remainder after the seven scheme characters. -/
def extract_api_key_from_request (authHeader : Option String) : Option String :=
  match authHeader with
  | none => none
  | some h =>
      let h := pstrip h
      if startsWithStr h "Bearer " = false then none
      else some (pstrip (dropStr h 7))

/-- Model of `validate_admin_key`.  `ADMIN_API_KEY` comes from the environment
(its definition lives outside the embedded sources); it is modelled as
an explicit `Option String` input where `none` or `some ""` mean
"not configured" — Python truthiness of the string. -/
def validate_admin_key (apiKey : String) (adminEnvKey : Option String) (st : RegState) : Bool :=
  if apiKey = "" then false
  else
    let byName :=
      match get_key_info st apiKey with
      | some info => info.name = "admin_key" && info.is_active
      | none => false
    if byName then true
    else
      match adminEnvKey with
      | some s => if s ≠ "" && apiKey = s then true else false
      | none => false

/-- What `APIKeyMiddleware.dispatch` decides for one request. -/
inductive Decision where
  | bypass
  | sentinel
  | reject (status : Nat) (detail : String)
  | accept (key : String) (info : Option KeyRecord)
deriving DecidableEq, Repr

/-- Whether the decision lets the request reach the route handler. -/
def Decision.isAdmitted : Decision → Bool
  | .reject _ _ => false
  | _ => true

/-- The excluded paths `create_app` installs the middleware with. -/
def excludedDefault : List String := ["/", "/health"]

/-- Model of `APIKeyMiddleware.dispatch`: excluded paths pass straight through;
with `DISABLE_AUTH` a sentinel context is attached and the registry is
never consulted; otherwise a missing or empty extracted key is a 401,
a failed `validate_key` is a 401, and success attaches the key and its
record snapshot.  The registry state is threaded because `validate_key`
mutates it. -/
def dispatch (path : String) (authHeader : Option String) (disableAuth : Bool)
    (excluded : List String) (st : RegState) (env : Env) (now : Nat) :
    Decision × RegState :=
  if path ∈ excluded then (.bypass, st)
  else if disableAuth then (.sentinel, st)
  else
    match extract_api_key_from_request authHeader with
    | none => (.reject 401 "缺少Authorization头", st)
    | some key =>
        if key = "" then (.reject 401 "缺少Authorization头", st)
        else
          let res := validate_key st env now key
          if res.1 then (.accept key (get_key_info res.2 key), res.2)
          else (.reject 401 "无效的API密钥", res.2)

/-! ### The chat-completion route and the streaming pipeline -/

/-- Token-usage block of a completion object. -/
structure Usage where
  prompt_tokens : Nat
  completion_tokens : Nat
  total_tokens : Nat
deriving DecidableEq, Repr

/-- One chat message. -/
structure ChatMessage where
  role : String
  content : String
deriving DecidableEq, Repr

/-- One choice of a (non-streaming) completion object. -/
structure Choice where
  index : Nat
  message : ChatMessage
  finish_reason : String
deriving DecidableEq, Repr

/-- The non-streaming completion object. -/
structure Completion where
  id : String
  object : String
  created : Nat
  model : String
  usage : Usage
  choices : List Choice
deriving DecidableEq, Repr

/-- One delta choice of a streamed chunk. -/
structure DeltaChoice where
  index : Nat
  delta : ChatMessage
  finish_reason : String
deriving DecidableEq, Repr

/-- A streamed chunk object. -/
structure ChunkObj where
  id : String
  object : String
  created : Nat
  model : String
  choices : List DeltaChoice
deriving DecidableEq, Repr

/-- One event on the outbound event stream: a `data:` chunk or the
terminal `data: [DONE]` sentinel. -/
inductive SSEEvent where
  | chunk (c : ChunkObj)
  | done
deriving DecidableEq, Repr

/-- What the `chat_completions` handler returns, up to the point where
it would hand off to the external upstream client. -/
inductive ChatResult where
  | streamResp (events : List SSEEvent)
  | jsonResp (c : Completion)
  | upstreamCall (stream : Bool)
deriving DecidableEq, Repr

/-- The single chunk the empty-message streaming branch yields. -/
def emptyChunk (model uid : String) (now : Nat) : ChunkObj :=
  { id := "chatcmpl-proxy-empty-" ++ uid, object := "chat.completion.chunk",
    created := now, model := model,
    choices := [{ index := 0, delta := { role := "assistant", content := "" },
                  finish_reason := "stop" }] }

/-- The completion object the empty-message non-streaming branch returns. -/
def emptyCompletion (model uid : String) (now : Nat) : Completion :=
  { id := "chatcmpl-proxy-empty-" ++ uid, object := "chat.completion",
    created := now, model := model,
    usage := { prompt_tokens := 0, completion_tokens := 0, total_tokens := 0 },
    choices := [{ index := 0, message := { role := "assistant", content := "" },
                  finish_reason := "stop" }] }

/-- The `chat_completions` handler after body parsing: an empty message
list is synthesized locally (one chunk plus the sentinel when
streaming, a zero-usage completion object otherwise); a non-empty list
hands off to the upstream client (`vertex_client`, external to the
embedded sources), marked by `upstreamCall`.  `uid` stands for the
generated `uuid.uuid4()` string. -/
def chat_completions (messages : List ChatMessage) (model : String) (stream : Bool)
    (uid : String) (now : Nat) : ChatResult :=
  if messages = [] then
    if stream then .streamResp [.chunk (emptyChunk model uid now), .done]
    else .jsonResp (emptyCompletion model uid now)
  else .upstreamCall stream

/-- How the upstream chunk sequence of `vertex_client.stream_chat`
terminates after its last chunk: normal exhaustion, an `APIError`, an
`EmptyResponseError`, or an `asyncio.CancelledError`. -/
inductive UpTerm where
  | normal
  | apiErr (detail : String)
  | emptyErr (detail : String)
  | cancelled
deriving DecidableEq, Repr

/-- How the wrapped generator `stream_with_disconnect_check` ends:
silently (normal exhaustion or disconnect break), with an
`HTTPException` carrying a status code, or propagating cancellation. -/
inductive Outcome where
  | ok
  | httpError (status : Nat) (detail : String)
  | cancelled
deriving DecidableEq, Repr

/-- The outcome produced when the upstream termination is observed
(the generator's `except` clauses): `APIError` becomes a 500,
`EmptyResponseError` becomes a 505, cancellation re-raises. -/
def termOutcome : UpTerm → Outcome
  | .normal => .ok
  | .apiErr d => .httpError 500 d
  | .emptyErr d => .httpError 505 d
  | .cancelled => .cancelled

/-- Model of `stream_with_disconnect_check`: for each chunk pulled from
upstream, sample `request.is_disconnected()` (indexed by iteration
number via `disc`); if dropped, break — the chunk is not forwarded and
the generator ends silently; otherwise forward the chunk.  When the
chunk list is exhausted the upstream termination is observed.  Returns
the forwarded chunks and the generator's outcome. -/
def streamRun : List String → UpTerm → (Nat → Bool) → Nat → List String × Outcome
  | [], term, _, _ => ([], termOutcome term)
  | c :: rest, term, disc, i =>
      if disc i then ([], .ok)
      else
        let res := streamRun rest term disc (i + 1)
        (c :: res.1, res.2)

/-! ### Concrete states used by counterexamples and witnesses -/

/-- A record with accumulated usage, as it stands before a reload. -/
def recAlice : KeyRecord :=
  { name := "alice", description := "d", created_at := 1,
    usage_count := 5, last_used := 2, is_active := true }

/-- A registry holding one active key with accumulated usage. -/
def stAlice : RegState :=
  { api_keys := [("sk-a", recAlice)], active_keys := ["sk-a"], last_reload_time := 10 }

/-- A store that changed after the last reload and reads successfully. -/
def envChanged : Env :=
  { fileExists := true, mtime := 20, readLines := some ["alice:sk-a:desc"] }

/-- A store unchanged since the last reload. -/
def envQuiet : Env :=
  { fileExists := true, mtime := 5, readLines := some ["alice:sk-a:desc"] }

/-- A store that exists but whose read raises. -/
def envUnreadable : Env :=
  { fileExists := true, mtime := 20, readLines := none }

/-- A store that does not exist. -/
def envMissing : Env :=
  { fileExists := false, mtime := 0, readLines := none }

/-- The empty registry. -/
def stEmpty : RegState := { api_keys := [], active_keys := [], last_reload_time := 0 }

/-! ### Association-list and set lemmas -/

lemma lookup_insert_self (l : List (String × KeyRecord)) (k : String) (v : KeyRecord) :
    lookupKey (insertKey l k v) k = some v := by
  induction l with
  | nil => simp [insertKey, lookupKey]
  | cons p t ih =>
      obtain ⟨k', r'⟩ := p
      by_cases h : k' = k
      · simp [insertKey, h, lookupKey]
      · simp [insertKey, h, lookupKey, ih]

lemma lookup_insert_ne (l : List (String × KeyRecord)) (k k2 : String) (v : KeyRecord)
    (hne : k2 ≠ k) : lookupKey (insertKey l k v) k2 = lookupKey l k2 := by
  induction l with
  | nil => simp [insertKey, lookupKey, Ne.symm hne]
  | cons p t ih =>
      obtain ⟨k', r'⟩ := p
      by_cases h : k' = k
      · subst h
        simp [insertKey, lookupKey, Ne.symm hne]
      · simp only [insertKey, if_neg h, lookupKey]
        by_cases h2 : k' = k2
        · simp [h2]
        · simp [h2, ih]

lemma lookup_update_self (l : List (String × KeyRecord)) (k : String) (r v : KeyRecord)
    (hl : lookupKey l k = some r) : lookupKey (updateKey l k v) k = some v := by
  induction l with
  | nil => simp [lookupKey] at hl
  | cons p t ih =>
      obtain ⟨k', r'⟩ := p
      by_cases h : k' = k
      · simp [updateKey, h, lookupKey]
      · simp only [lookupKey, if_neg h] at hl
        simp [updateKey, h, lookupKey, ih hl]

lemma lookup_update_ne (l : List (String × KeyRecord)) (k k2 : String) (v : KeyRecord)
    (hne : k2 ≠ k) : lookupKey (updateKey l k v) k2 = lookupKey l k2 := by
  induction l with
  | nil => simp [updateKey]
  | cons p t ih =>
      obtain ⟨k', r'⟩ := p
      by_cases h : k' = k
      · subst h
        simp [updateKey, lookupKey, Ne.symm hne]
      · simp only [updateKey, if_neg h, lookupKey]
        by_cases h2 : k' = k2
        · simp [h2]
        · simp [h2, ih]

lemma mem_addKey (l : List String) (k k2 : String) :
    k2 ∈ addKey l k ↔ (k2 ∈ l ∨ k2 = k) := by
  unfold addKey
  by_cases h : k ∈ l
  · simp only [if_pos h]
    constructor
    · exact Or.inl
    · rintro (h2 | rfl)
      · exact h2
      · exact h
  · simp only [if_neg h, List.mem_cons]
    tauto

lemma mem_discardKey (l : List String) (k k2 : String) :
    k2 ∈ discardKey l k ↔ (k2 ∈ l ∧ k2 ≠ k) := by
  simp [discardKey, List.mem_filter]

/-! ### Preservation of the active-set invariant -/

lemma pairInv_loadLine (now : Nat) (line : String)
    (p : List (String × KeyRecord) × List String) (h : pairInv p) :
    pairInv (loadLine now p line) := by
  unfold loadLine
  cases hp : parseLine line with
  | none => exact h
  | some v =>
      obtain ⟨name, key, desc⟩ := v
      intro k2
      by_cases hk : k2 = key
      · subst hk
        simp [mem_addKey, lookup_insert_self, mkRec]
      · simp only [mem_addKey, lookup_insert_ne _ _ _ _ hk]
        rw [h k2]
        simp [hk]

lemma pairInv_foldl (lines : List String) (now : Nat)
    (p : List (String × KeyRecord) × List String) (h : pairInv p) :
    pairInv (lines.foldl (loadLine now) p) := by
  induction lines generalizing p with
  | nil => exact h
  | cons line rest ih => exact ih _ (pairInv_loadLine now line p h)

lemma activeInv_load (st : RegState) (env : Env) (now : Nat) (h : activeInv st) :
    activeInv (load_keys st env now).2 := by
  unfold load_keys
  cases hfe : env.fileExists with
  | false => simpa using h
  | true =>
      cases hr : env.readLines with
      | none =>
          intro k
          simp [lookupKey]
      | some lines =>
          intro k
          have hbase : pairInv (([], []) : List (String × KeyRecord) × List String) := by
            intro k2
            simp [lookupKey]
          exact pairInv_foldl lines now ([], []) hbase k

lemma load_keys_success_inv (st : RegState) (env : Env) (now : Nat) (st2 : RegState)
    (h : load_keys st env now = (true, st2)) : activeInv st2 := by
  unfold load_keys at h
  cases hfe : env.fileExists with
  | false => simp [hfe] at h
  | true =>
      cases hr : env.readLines with
      | none => simp [hfe, hr] at h
      | some lines =>
          simp only [hfe, hr, Bool.true_eq_false, if_false, Prod.mk.injEq, true_and] at h
          subst h
          intro k
          have hbase : pairInv (([], []) : List (String × KeyRecord) × List String) := by
            intro k2
            simp [lookupKey]
          exact pairInv_foldl lines now ([], []) hbase k

lemma activeInv_validate_core (st : RegState) (now : Nat) (key : String)
    (h : activeInv st) : activeInv (validate_core st now key).2 := by
  cases hl : lookupKey st.api_keys key with
  | none => simpa [validate_core, hl] using h
  | some r =>
      cases ha : r.is_active with
      | false => simpa [validate_core, hl, ha] using h
      | true =>
          simp only [validate_core, hl, ha, if_true]
          intro k2
          by_cases hk : k2 = key
          · subst hk
            constructor
            · intro _
              exact ⟨bumpRec r now, lookup_update_self _ _ r _ hl, ha⟩
            · intro _
              exact (h k2).mpr ⟨r, hl, ha⟩
          · constructor
            · intro hm
              obtain ⟨r', hr', ha'⟩ := (h k2).mp hm
              exact ⟨r', (lookup_update_ne st.api_keys key k2 (bumpRec r now) hk).trans hr', ha'⟩
            · rintro ⟨r', hr', ha'⟩
              have hr2 : lookupKey st.api_keys k2 = some r' :=
                (lookup_update_ne st.api_keys key k2 (bumpRec r now) hk).symm.trans hr'
              exact (h k2).mpr ⟨r', hr2, ha'⟩

lemma activeInv_validate (st : RegState) (env : Env) (now : Nat) (raw : String)
    (h : activeInv st) : activeInv (validate_key st env now raw).2 := by
  unfold validate_key
  by_cases he : raw = ""
  · simpa [he] using h
  · simp only [if_neg he]
    cases hsr : should_reload st env with
    | false => simpa using activeInv_validate_core st now (pstrip raw) h
    | true =>
        simpa using activeInv_validate_core _ now (pstrip raw) (activeInv_load st env now h)

lemma activeInv_activate (st : RegState) (key : String) (h : activeInv st) :
    activeInv (activate_key st key).2 := by
  cases hl : lookupKey st.api_keys key with
  | none => simpa [activate_key, hl] using h
  | some r =>
      simp only [activate_key, hl]
      intro k2
      by_cases hk : k2 = key
      · subst hk
        simp [mem_addKey, lookup_update_self _ _ r _ hl]
      · simp only [mem_addKey, lookup_update_ne _ _ _ _ hk]
        rw [h k2]
        simp [hk]

lemma activeInv_deactivate (st : RegState) (key : String) (h : activeInv st) :
    activeInv (deactivate_key st key).2 := by
  cases hl : lookupKey st.api_keys key with
  | none => simpa [deactivate_key, hl] using h
  | some r =>
      simp only [deactivate_key, hl]
      intro k2
      by_cases hk : k2 = key
      · subst hk
        simp [mem_discardKey, lookup_update_self _ _ r _ hl]
      · simp only [mem_discardKey, lookup_update_ne _ _ _ _ hk]
        rw [h k2]
        simp [hk]

lemma activeInv_create (st : RegState) (token name description : String) (now : Nat)
    (h : activeInv st) : activeInv (create_key st token name description now).2 := by
  unfold create_key
  intro k2
  by_cases hk : k2 = "sk-" ++ token
  · subst hk
    simp [mem_addKey, lookup_insert_self, mkRec]
  · simp only [mem_addKey, lookup_insert_ne _ _ _ _ hk]
    rw [h k2]
    simp [hk]

/-! ### Freshness of loaded records -/

lemma freshRecs_loadLine (now : Nat) (line : String)
    (p : List (String × KeyRecord) × List String) (h : freshRecs p.1) :
    freshRecs (loadLine now p line).1 := by
  unfold loadLine
  cases hp : parseLine line with
  | none => exact h
  | some v =>
      obtain ⟨name, key, desc⟩ := v
      intro k2 r2 hl
      by_cases hk : k2 = key
      · subst hk
        rw [lookup_insert_self] at hl
        cases hl
        simp [mkRec]
      · rw [lookup_insert_ne _ _ _ _ hk] at hl
        exact h k2 r2 hl

lemma freshRecs_foldl (lines : List String) (now : Nat)
    (p : List (String × KeyRecord) × List String) (h : freshRecs p.1) :
    freshRecs (lines.foldl (loadLine now) p).1 := by
  induction lines generalizing p with
  | nil => exact h
  | cons line rest ih => exact ih _ (freshRecs_loadLine now line p h)

/-! ### Shape lemmas for `validate_key` -/

lemma validate_key_empty (st : RegState) (env : Env) (now : Nat) :
    validate_key st env now "" = (false, st) := rfl

lemma validate_key_no_reload (st : RegState) (env : Env) (now : Nat) (raw : String)
    (hsr : should_reload st env = false) (hr : raw ≠ "") :
    validate_key st env now raw = validate_core st now (pstrip raw) := by
  simp [validate_key, hr, hsr]

/-! ### Claims about the streaming pipeline and the synthesizer -/

/-- C2: for a streamed request whose upstream sequence fails before any
content unit is forwarded, the generator's outcome is a single failure
carrying status 500 for a generic `APIError` and the distinct status
505 for an `EmptyResponseError`, so the two classifications are
distinguishable. -/
theorem claim_C2_stream_error_statuses : ∀ (disc : Nat → Bool) (d : String),
    streamRun [] (UpTerm.apiErr d) disc 0 = ([], Outcome.httpError 500 d) ∧
    streamRun [] (UpTerm.emptyErr d) disc 0 = ([], Outcome.httpError 505 d) ∧
    Outcome.httpError 500 d ≠ Outcome.httpError 505 d := by
  intro disc d
  refine ⟨rfl, rfl, ?_⟩
  intro h
  cases h

/-- C7: once the per-chunk disconnect sample reports the client
dropped, no further content unit is forwarded and the outbound stream
ends silently (outcome `ok`, no error event or failure status): the
forwarded output is exactly the chunks sent before the drop was
sampled. -/
theorem claim_C7_disconnect_silent :
    ∀ (pre : List String) (c : String) (rest : List String) (term : UpTerm)
      (disc : Nat → Bool) (i : Nat),
      (∀ j, j < pre.length → disc (i + j) = false) →
      disc (i + pre.length) = true →
      streamRun (pre ++ c :: rest) term disc i = (pre, Outcome.ok) := by
  intro pre c rest term disc i h1 h2
  induction pre generalizing i with
  | nil =>
      have hd : disc i = true := by simpa using h2
      simp [streamRun, hd]
  | cons a t ih =>
      have h0 : disc i = false := by
        have := h1 0 (Nat.succ_pos _)
        simpa using this
      have hrec := ih (i + 1)
        (fun j hj => by
          have e : i + 1 + j = i + (j + 1) := by omega
          rw [e]
          exact h1 (j + 1) (by simpa using Nat.succ_lt_succ hj))
        (by
          have e : i + 1 + t.length = i + (t.length + 1) := by omega
          rw [e]
          simpa using h2)
      simp [streamRun, h0, hrec]

/-- A concrete run for C7: with a three-chunk upstream and the client
dropping at the second sample, exactly the first chunk is forwarded
and the stream ends silently. -/
theorem claim_C7_witness :
    streamRun (["a"] ++ "b" :: ["c"]) UpTerm.normal (fun n => decide (1 ≤ n)) 0 =
      (["a"], Outcome.ok) :=
  claim_C7_disconnect_silent ["a"] "b" ["c"] UpTerm.normal (fun n => decide (1 ≤ n)) 0
    (by decide) (by decide)

/-- C8: with an empty message list the upstream backend is never
contacted; with `stream = false` the handler returns a completion
object with a generated identifier, the echoed model, all usage fields
zero, and one choice whose message is the assistant role with empty
content and finish reason "stop"; with `stream = true` it returns
exactly one content event followed by the terminal sentinel. -/
theorem claim_C8_empty_messages_synthesized : ∀ (model uid : String) (now : Nat),
    chat_completions [] model false uid now = ChatResult.jsonResp
      { id := "chatcmpl-proxy-empty-" ++ uid, object := "chat.completion",
        created := now, model := model,
        usage := { prompt_tokens := 0, completion_tokens := 0, total_tokens := 0 },
        choices := [{ index := 0, message := { role := "assistant", content := "" },
                      finish_reason := "stop" }] } ∧
    chat_completions [] model true uid now = ChatResult.streamResp
      [SSEEvent.chunk
        { id := "chatcmpl-proxy-empty-" ++ uid, object := "chat.completion.chunk",
          created := now, model := model,
          choices := [{ index := 0, delta := { role := "assistant", content := "" },
                        finish_reason := "stop" }] }, SSEEvent.done] ∧
    (∀ (msgs : List ChatMessage) (stream : Bool),
       chat_completions msgs model stream uid now = ChatResult.upstreamCall stream ↔
         msgs ≠ []) := by
  intro model uid now
  refine ⟨rfl, rfl, ?_⟩
  intro msgs stream
  by_cases h : msgs = []
  · subst h
    cases stream <;> simp [chat_completions]
  · simp [chat_completions, h]

/-- A concrete instance of C2: a pre-content `APIError` produces the
single 500 failure outcome. -/
theorem claim_C2_witness :
    streamRun [] (UpTerm.apiErr "boom") (fun _ => false) 0 =
      ([], Outcome.httpError 500 "boom") :=
  (claim_C2_stream_error_statuses (fun _ => false) "boom").1

/-- A concrete instance of C8: a nonempty message list hands off to
the upstream client. -/
theorem claim_C8_witness :
    chat_completions [{ role := "user", content := "hi" }] "gemini-1.5-pro" true "u1" 7 =
      ChatResult.upstreamCall true :=
  ((claim_C8_empty_messages_synthesized "gemini-1.5-pro" "u1" 7).2.2
    [{ role := "user", content := "hi" }] true).mpr (by simp)

/-! ### Claims about loading -/

/-- C3 (counterexample): with an existing but unreadable backing store,
`load_keys` returns failure but does NOT leave the in-memory table as
it was: the table (and active set) have been cleared before the read
raised, so load is not atomic on error as claimed. -/
theorem claim_C3_counterexample :
    (load_keys stAlice envUnreadable 30).1 = false ∧
    (load_keys stAlice envUnreadable 30).2 ≠ stAlice := by
  decide

/-- C3 (amended): if the backing store does not exist, `load()` fails
with the state fully unchanged; if the store exists but reading it
fails, `load()` fails with `last_reload_time` unchanged but with the
in-memory table and the active-set index cleared. -/
theorem claim_C3_load_error_amended : ∀ (st : RegState) (env : Env) (now : Nat),
    (env.fileExists = false → load_keys st env now = (false, st)) ∧
    (env.fileExists = true → env.readLines = none →
      load_keys st env now = (false, { st with api_keys := [], active_keys := [] })) := by
  intro st env now
  constructor
  · intro h
    simp [load_keys, h]
  · intro h1 h2
    simp [load_keys, h1, h2]

/-- Concrete instances of the amended C3: a missing store leaves the
registry untouched, an unreadable one clears the table but keeps
`last_reload_time`. -/
theorem claim_C3_witness :
    load_keys stAlice envMissing 30 = (false, stAlice) ∧
    load_keys stAlice envUnreadable 30 =
      (false, { stAlice with api_keys := [], active_keys := [] }) :=
  ⟨(claim_C3_load_error_amended stAlice envMissing 30).1 rfl,
   (claim_C3_load_error_amended stAlice envUnreadable 30).2 rfl rfl⟩

/-- C9: the implicit-reload trigger fires exactly when the existing
backing store's modification time strictly exceeds `last_reload_time`;
a missing store never triggers; right after a successful `load()` with
the store unchanged the trigger is off; and when the trigger is off,
`validate_key` consults the current table directly (no reload). -/
theorem claim_C9_reload_condition :
    (∀ (st : RegState) (env : Env), env.fileExists = true →
      (should_reload st env = true ↔ env.mtime > st.last_reload_time)) ∧
    (∀ (st : RegState) (env : Env), env.fileExists = false →
      should_reload st env = false) ∧
    (∀ (st : RegState) (env : Env) (now : Nat) (st2 : RegState),
      load_keys st env now = (true, st2) → env.mtime ≤ now →
      should_reload st2 env = false) ∧
    (∀ (st : RegState) (env : Env) (now : Nat) (raw : String),
      should_reload st env = false →
      validate_key st env now raw =
        if raw = "" then (false, st) else validate_core st now (pstrip raw)) := by
  refine ⟨?_, ?_, ?_, ?_⟩
  · intro st env h
    simp [should_reload, h]
  · intro st env h
    simp [should_reload, h]
  · intro st env now st2 hload hle
    unfold load_keys at hload
    cases hfe : env.fileExists with
    | false => rw [hfe] at hload; simp at hload
    | true =>
        rw [hfe] at hload
        simp only [Bool.true_eq_false, if_false] at hload
        cases hr : env.readLines with
        | none => rw [hr] at hload; simp at hload
        | some lines =>
            rw [hr] at hload
            rw [Prod.mk.injEq] at hload
            obtain ⟨-, h2⟩ := hload
            have hlr : st2.last_reload_time = now := by rw [← h2]
            simp [should_reload, hfe, hlr]
            omega
  · intro st env now raw h
    by_cases hr : raw = ""
    · simp [validate_key, hr]
    · simp [validate_key, hr, h]

/-- Concrete instances of C9: the trigger fires iff the store is newer;
never for a missing store; is off right after a load; and an untriggered
`validate_key` is exactly the direct table consultation. -/
theorem claim_C9_witness :
    (should_reload stAlice envChanged = true ↔
      envChanged.mtime > stAlice.last_reload_time) ∧
    should_reload stAlice envMissing = false ∧
    should_reload (load_keys stAlice envChanged 30).2 envChanged = false ∧
    validate_key stAlice envQuiet 30 "sk-a" =
      (if "sk-a" = "" then (false, stAlice) else validate_core stAlice 30 (pstrip "sk-a")) :=
  ⟨claim_C9_reload_condition.1 stAlice envChanged rfl,
   claim_C9_reload_condition.2.1 stAlice envMissing rfl,
   claim_C9_reload_condition.2.2.1 stAlice envChanged 30 (load_keys stAlice envChanged 30).2
     (by decide) (by decide),
   claim_C9_reload_condition.2.2.2 stAlice envQuiet 30 "sk-a" (by decide)⟩

/-- C10: after every successful `load()` (including one triggered on
the validate hot path), every record in the registry has
`usage_count = 0`, `last_used = 0` and `is_active = true`: reloading
discards accumulated usage statistics and reactivates every key whose
line remains in the store. -/
theorem claim_C10_load_resets_records :
    ∀ (st : RegState) (env : Env) (now : Nat) (st2 : RegState),
      load_keys st env now = (true, st2) →
      ∀ (k : String) (r : KeyRecord), lookupKey st2.api_keys k = some r →
        r.usage_count = 0 ∧ r.last_used = 0 ∧ r.is_active = true := by
  intro st env now st2 hload
  unfold load_keys at hload
  cases hfe : env.fileExists with
  | false => rw [hfe] at hload; simp at hload
  | true =>
      rw [hfe] at hload
      simp only [Bool.true_eq_false, if_false] at hload
      cases hr : env.readLines with
      | none => rw [hr] at hload; simp at hload
      | some lines =>
          rw [hr] at hload
          rw [Prod.mk.injEq] at hload
          obtain ⟨-, h2⟩ := hload
          intro k r hl
          rw [← h2] at hl
          exact freshRecs_foldl lines now ([], [])
            (fun k' r' h' => by simp [lookupKey] at h') k r hl

/-- A concrete instance of C10: reloading over a registry whose record
had usage 5 yields a record with zeroed statistics. -/
theorem claim_C10_witness :
    (mkRec "alice" "desc" 30).usage_count = 0 ∧
    (mkRec "alice" "desc" 30).last_used = 0 ∧
    (mkRec "alice" "desc" 30).is_active = true :=
  claim_C10_load_resets_records stAlice envChanged 30 (load_keys stAlice envChanged 30).2
    (by decide) "sk-a" (mkRec "alice" "desc" 30) (by decide)

/-! ### The admin authorizer -/

/-- C5: admin access is granted exactly when the resolved secret is
nonempty and EITHER its (stripped) registry record is named
`admin_key` and active, OR it textually equals a configured nonempty
`ADMIN_API_KEY` — the latter grants even when absent from the
registry; an absent (empty) secret never grants. -/
theorem claim_C5_admin_dual_path :
    ∀ (key : String) (cfg : Option String) (st : RegState),
      (validate_admin_key key cfg st = true ↔
        (key ≠ "" ∧
          ((∃ r : KeyRecord, lookupKey st.api_keys (pstrip key) = some r ∧
              r.name = "admin_key" ∧ r.is_active = true) ∨
           (∃ s : String, cfg = some s ∧ s ≠ "" ∧ key = s)))) ∧
      validate_admin_key "" cfg st = false := by
  intro key cfg st
  refine ⟨?_, rfl⟩
  by_cases hk : key = ""
  · simp [validate_admin_key, hk]
  · cases hl : lookupKey st.api_keys (pstrip key) with
    | some info =>
        by_cases h1 : info.name = "admin_key" ∧ info.is_active = true
        · have hL : validate_admin_key key cfg st = true := by
            simp [validate_admin_key, get_key_info, hk, hl, h1.1, h1.2]
          rw [hL]
          exact ⟨fun _ => ⟨hk, Or.inl ⟨info, rfl, h1.1, h1.2⟩⟩, fun _ => rfl⟩
        · have hbF : (decide (info.name = "admin_key") && info.is_active) = false := by
            by_cases a : info.name = "admin_key"
            · cases hA : info.is_active with
              | true => exact absurd ⟨a, hA⟩ h1
              | false => simp [hA]
            · simp [a]
          cases cfg with
          | none =>
              have hL : validate_admin_key key none st = false := by
                simp [validate_admin_key, get_key_info, hk, hl, hbF]
              rw [hL]
              constructor
              · intro h
                simp at h
              · rintro ⟨-, ⟨r, hr, hn, ha⟩ | ⟨s, hs, -, -⟩⟩
                · injection hr with h2
                  subst h2
                  exact absurd ⟨hn, ha⟩ h1
                · exact Option.noConfusion hs
          | some s =>
              by_cases hs1 : s ≠ "" ∧ key = s
              · have hL : validate_admin_key key (some s) st = true := by
                  simp [validate_admin_key, get_key_info, hk, hl, hbF, hs1.1, hs1.2]
                rw [hL]
                exact ⟨fun _ => ⟨hk, Or.inr ⟨s, rfl, hs1.1, hs1.2⟩⟩, fun _ => rfl⟩
              · have hsF : (decide (¬s = "") && decide (key = s)) = false := by
                  by_cases a : s = ""
                  · simp [a]
                  · by_cases b : key = s
                    · exact absurd ⟨a, b⟩ hs1
                    · simp [a, b]
                have hL : validate_admin_key key (some s) st = false := by
                  simp [validate_admin_key, get_key_info, hk, hl, hbF]
                  intro a b
                  exact hs1 ⟨a, b⟩
                rw [hL]
                constructor
                · intro h
                  simp at h
                · rintro ⟨-, ⟨r, hr, hn, ha⟩ | ⟨s2, hs2, hne, hkey⟩⟩
                  · injection hr with h2
                    subst h2
                    exact absurd ⟨hn, ha⟩ h1
                  · injection hs2 with h2
                    subst h2
                    exact absurd ⟨hne, hkey⟩ hs1
    | none =>
        cases cfg with
        | none =>
            have hL : validate_admin_key key none st = false := by
              simp [validate_admin_key, get_key_info, hk, hl]
            rw [hL]
            constructor
            · intro h
              simp at h
            · rintro ⟨-, ⟨r, hr, -, -⟩ | ⟨s, hs, -, -⟩⟩
              · exact Option.noConfusion hr
              · exact Option.noConfusion hs
        | some s =>
            by_cases hs1 : s ≠ "" ∧ key = s
            · have hL : validate_admin_key key (some s) st = true := by
                simp [validate_admin_key, get_key_info, hk, hl, hs1.1, hs1.2]
              rw [hL]
              exact ⟨fun _ => ⟨hk, Or.inr ⟨s, rfl, hs1.1, hs1.2⟩⟩, fun _ => rfl⟩
            · have hsF : (decide (¬s = "") && decide (key = s)) = false := by
                by_cases a : s = ""
                · simp [a]
                · by_cases b : key = s
                  · exact absurd ⟨a, b⟩ hs1
                  · simp [a, b]
              have hL : validate_admin_key key (some s) st = false := by
                simp [validate_admin_key, get_key_info, hk, hl]
                intro a b
                exact hs1 ⟨a, b⟩
              rw [hL]
              constructor
              · intro h
                simp at h
              · rintro ⟨-, ⟨r, hr, -, -⟩ | ⟨s2, hs2, hne, hkey⟩⟩
                · exact Option.noConfusion hr
                · injection hs2 with h2
                  subst h2
                  exact absurd ⟨hne, hkey⟩ hs1

/-- A concrete instance of C5: an absent resolved secret is never
granted admin, even with a configured administrative secret. -/
theorem claim_C5_witness :
    validate_admin_key "" (some "sk-root") stAlice = false :=
  (claim_C5_admin_dual_path "" (some "sk-root") stAlice).2

/-! ### Validation (C1) -/

/-- C1 (counterexample): when the backing store changed since the last
load, validating even an UNKNOWN key triggers the implicit reload,
which rewrites other records (usage statistics are reset), so
"returns false and leaves every record's usage_count and last_used
unchanged" fails: here `sk-a` had usage_count 5 and last_used 2 before
the call and a fresh zeroed record after it. -/
theorem claim_C1_counterexample :
    (validate_key stAlice envChanged 30 "sk-b").1 = false ∧
    lookupKey (validate_key stAlice envChanged 30 "sk-b").2.api_keys "sk-a" ≠
      lookupKey stAlice.api_keys "sk-a" := by
  decide

/-- C1 (amended): provided the call triggers no implicit reload
(`_should_reload` is false), `validate` trims the raw key; a present
active record gets `usage_count` incremented by exactly one and
`last_used` set to now (all other records, the active set and the
reload stamp untouched) with result true; an empty raw key, an unknown
key, or an inactive key yields false with the state fully unchanged. -/
theorem claim_C1_validate_no_reload :
    ∀ (st : RegState) (env : Env) (now : Nat) (raw : String),
      should_reload st env = false →
      ((raw = "" → validate_key st env now raw = (false, st)) ∧
       (∀ r : KeyRecord, raw ≠ "" → lookupKey st.api_keys (pstrip raw) = some r →
          r.is_active = true →
          (validate_key st env now raw).1 = true ∧
          lookupKey (validate_key st env now raw).2.api_keys (pstrip raw) =
            some (bumpRec r now) ∧
          (∀ k : String, k ≠ pstrip raw →
            lookupKey (validate_key st env now raw).2.api_keys k =
              lookupKey st.api_keys k) ∧
          (validate_key st env now raw).2.active_keys = st.active_keys ∧
          (validate_key st env now raw).2.last_reload_time = st.last_reload_time) ∧
       (raw ≠ "" → lookupKey st.api_keys (pstrip raw) = none →
          validate_key st env now raw = (false, st)) ∧
       (∀ r : KeyRecord, raw ≠ "" → lookupKey st.api_keys (pstrip raw) = some r →
          r.is_active = false → validate_key st env now raw = (false, st))) := by
  intro st env now raw hsr
  refine ⟨?_, ?_, ?_, ?_⟩
  · intro h
    simp [validate_key, h]
  · intro r hr hl ha
    rw [validate_key_no_reload st env now raw hsr hr]
    simp only [validate_core, hl, ha, if_true]
    refine ⟨?_, lookup_update_self _ _ r _ hl,
      fun k hk => lookup_update_ne _ _ _ _ hk, ?_, ?_⟩ <;> simp
  · intro hr hl
    rw [validate_key_no_reload st env now raw hsr hr]
    simp [validate_core, hl]
  · intro r hr hl ha
    rw [validate_key_no_reload st env now raw hsr hr]
    simp [validate_core, hl, ha]

/-- Concrete instances of the amended C1: with an unchanged store, a
hit on the active key returns true and bumps exactly that record, and
an unknown key returns false leaving the state untouched. -/
theorem claim_C1_witness :
    (validate_key stAlice envQuiet 30 "sk-a").1 = true ∧
    lookupKey (validate_key stAlice envQuiet 30 "sk-a").2.api_keys (pstrip "sk-a") =
      some (bumpRec recAlice 30) ∧
    validate_key stAlice envQuiet 30 "sk-zzz" = (false, stAlice) :=
  ⟨((claim_C1_validate_no_reload stAlice envQuiet 30 "sk-a" (by decide)).2.1 recAlice
      (by decide) (by decide) (by decide)).1,
   ((claim_C1_validate_no_reload stAlice envQuiet 30 "sk-a" (by decide)).2.1 recAlice
      (by decide) (by decide) (by decide)).2.1,
   (claim_C1_validate_no_reload stAlice envQuiet 30 "sk-zzz" (by decide)).2.2.1
      (by decide) (by decide)⟩

/-! ### The authentication middleware (C4) -/

/-- C4: outside the bypass list, with authentication enabled a request
reaches the route handler iff the Authorization header is present,
after trimming starts with the literal `"Bearer "` scheme, and the
trimmed remainder validates against the registry; a missing header is
rejected with 401 before the handler runs; with the global disable
flag every request is admitted with the sentinel context and the
registry state is untouched (no lookup occurs). -/
theorem claim_C4_auth_gate :
    ∀ (path : String) (authHeader : Option String) (st : RegState) (env : Env) (now : Nat),
      path ∉ excludedDefault →
      (dispatch path authHeader true excludedDefault st env now =
        (Decision.sentinel, st)) ∧
      ((dispatch path authHeader false excludedDefault st env now).1.isAdmitted = true ↔
        ∃ h : String, authHeader = some h ∧
          startsWithStr (pstrip h) "Bearer " = true ∧
          (validate_key st env now (pstrip (dropStr (pstrip h) 7))).1 = true) ∧
      (authHeader = none →
        dispatch path authHeader false excludedDefault st env now =
          (Decision.reject 401 "缺少Authorization头", st)) := by
  intro path authHeader st env now hp
  refine ⟨?_, ?_, ?_⟩
  · simp [dispatch, hp]
  · cases authHeader with
    | none =>
        simp [dispatch, hp, extract_api_key_from_request, Decision.isAdmitted]
    | some h =>
        cases hs : startsWithStr (pstrip h) "Bearer " with
        | false =>
            simp [dispatch, hp, extract_api_key_from_request, hs, Decision.isAdmitted]
        | true =>
            by_cases hk : pstrip (dropStr (pstrip h) 7) = ""
            · simp [dispatch, hp, extract_api_key_from_request, hs, hk,
                Decision.isAdmitted, validate_key_empty]
            · cases hv : (validate_key st env now (pstrip (dropStr (pstrip h) 7))).1 with
              | true =>
                  simp [dispatch, hp, extract_api_key_from_request, hs, hk, hv,
                    Decision.isAdmitted]
              | false =>
                  simp [dispatch, hp, extract_api_key_from_request, hs, hk, hv,
                    Decision.isAdmitted]
  · intro hnone
    subst hnone
    simp [dispatch, hp, extract_api_key_from_request]

/-- A concrete instance of C4: with the disable flag set, a request to
a non-bypass path is admitted with the sentinel and an unchanged
registry. -/
theorem claim_C4_witness :
    dispatch "/v1/models" (some "Bearer sk-a") true excludedDefault stAlice envQuiet 30 =
      (Decision.sentinel, stAlice) :=
  (claim_C4_auth_gate "/v1/models" (some "Bearer sk-a") stAlice envQuiet 30 (by decide)).1

/-! ### The active-set index invariant (C6) -/

/-- C6: every registry operation (load, create, activate, deactivate,
validate) preserves "the active set equals exactly the secrets whose
record is active"; activate adds the secret to the set, deactivate
removes it, and both return false on an unknown secret leaving both
structures unchanged. -/
theorem claim_C6_active_index :
    (∀ (st : RegState) (env : Env) (now : Nat),
      activeInv st → activeInv (load_keys st env now).2) ∧
    (∀ (st : RegState) (token name description : String) (now : Nat),
      activeInv st → activeInv (create_key st token name description now).2) ∧
    (∀ (st : RegState) (key : String),
      activeInv st → activeInv (activate_key st key).2) ∧
    (∀ (st : RegState) (key : String),
      activeInv st → activeInv (deactivate_key st key).2) ∧
    (∀ (st : RegState) (env : Env) (now : Nat) (raw : String),
      activeInv st → activeInv (validate_key st env now raw).2) ∧
    (∀ (st : RegState) (key : String), lookupKey st.api_keys key = none →
      activate_key st key = (false, st) ∧ deactivate_key st key = (false, st)) ∧
    (∀ (st : RegState) (key : String) (r : KeyRecord),
      lookupKey st.api_keys key = some r →
      key ∈ (activate_key st key).2.active_keys ∧
      key ∉ (deactivate_key st key).2.active_keys) := by
  refine ⟨activeInv_load, activeInv_create, activeInv_activate, activeInv_deactivate,
    activeInv_validate, ?_, ?_⟩
  · intro st key h
    constructor <;> simp [activate_key, deactivate_key, h]
  · intro st key r h
    constructor
    · simp [activate_key, h, mem_addKey]
    · simp [deactivate_key, h, mem_discardKey]

/-- Concrete instances of C6: creation from the empty registry keeps
the index invariant; activate/deactivate of an unknown secret are
no-ops returning false; activate inserts and deactivate removes the
secret from the active set. -/
theorem claim_C6_witness :
    activeInv (create_key stEmpty "tok" "bob" "d" 5).2 ∧
    activate_key stEmpty "sk-x" = (false, stEmpty) ∧
    deactivate_key stEmpty "sk-x" = (false, stEmpty) ∧
    "sk-a" ∈ (activate_key stAlice "sk-a").2.active_keys ∧
    "sk-a" ∉ (deactivate_key stAlice "sk-a").2.active_keys :=
  ⟨claim_C6_active_index.2.1 stEmpty "tok" "bob" "d" 5
      (fun k => by simp [stEmpty, lookupKey]),
   (claim_C6_active_index.2.2.2.2.2.1 stEmpty "sk-x" (by decide)).1,
   (claim_C6_active_index.2.2.2.2.2.1 stEmpty "sk-x" (by decide)).2,
   (claim_C6_active_index.2.2.2.2.2.2 stAlice "sk-a" recAlice (by decide)).1,
   (claim_C6_active_index.2.2.2.2.2.2 stAlice "sk-a" recAlice (by decide)).2⟩

end Gateway
